import Mathlib

/-!
Verification of the content generation and validation pipeline of the
docling-service repository, against its natural-language specification.

The Python sources are shallowly embedded: strings are `List Char` wrapped
in `String`, Python dict values are `PyVal`, fallible code returns
`Option` or `Except`, and each `re.sub` / `re.search` call is embedded as
a specialised scanner that reproduces the semantics of the concrete
pattern used at that call site (including CPython 3.7+ `re.sub`
replacement of an empty match adjacent to a previous non-empty match).
Scanners that consume more than one character per step carry an explicit
fuel argument, always called with fuel at least `length + 1`, so that all
definitions reduce in the kernel.

Deliberate modelling bounds, noted where they apply: character case
conversion is ASCII (the sources only compare ASCII letters), and JSON
numbers are modelled as integers (no floating point).
-/

namespace Docling

/-- Python `\s` on the ASCII range (the sources only produce ASCII whitespace). -/
def wsChar (c : Char) : Bool :=
  c = ' ' || c = '\t' || c = '\n' || c = '\r' || c = '\x0b' || c = '\x0c'

/-- Left strip, as in Python `str.lstrip()`. -/
def lstripL (l : List Char) : List Char := l.dropWhile wsChar

/-- Right strip, as in Python `str.rstrip()`. -/
def rstripL (l : List Char) : List Char := (l.reverse.dropWhile wsChar).reverse

/-- Python `str.strip()` on char lists. -/
def pystripL (l : List Char) : List Char := rstripL (lstripL l)

/-- Python `str.strip()`. -/
def pystrip (s : String) : String := ⟨pystripL s.data⟩

/-- One pass of `re.sub(r'\s+', ' ', s)`: every maximal whitespace run
becomes a single space.  The Bool records whether the previous character
was part of a whitespace run. -/
def collapseWsGo : Bool → List Char → List Char
  | _, [] => []
  | prev, c :: r =>
    if wsChar c then
      if prev then collapseWsGo true r else ' ' :: collapseWsGo true r
    else c :: collapseWsGo false r

/-- `re.sub(r'\s+', ' ', s)`. -/
def collapseWsL (l : List Char) : List Char := collapseWsGo false l

/-- Substring test on char lists. -/
def containsSubL (needle : List Char) : List Char → Bool
  | [] => needle.isEmpty
  | c :: r => needle.isPrefixOf (c :: r) || containsSubL needle r

/-- Substring test, as in Python `needle in hay`. -/
def containsSub (hay needle : String) : Bool := containsSubL needle.data hay.data

/-- Non-overlapping occurrence count, as in Python `str.count` for a
non-empty pattern.  Fuel is at least `length + 1`. -/
def countSubGo (needle : List Char) : Nat → List Char → Nat
  | 0, _ => 0
  | _, [] => 0
  | fuel + 1, c :: r =>
    if needle.isPrefixOf (c :: r) then
      1 + countSubGo needle fuel ((c :: r).drop needle.length)
    else countSubGo needle fuel r

/-- Python `hay.count(needle)` for non-empty `needle`. -/
def countSub (hay needle : String) : Nat :=
  countSubGo needle.data (hay.data.length + 1) hay.data

/-- Left-to-right non-overlapping literal replacement, as in Python
`str.replace` for a non-empty pattern.  Fuel is at least `length + 1`. -/
def replaceSubGo (needle repl : List Char) : Nat → List Char → List Char
  | 0, l => l
  | _, [] => []
  | fuel + 1, c :: r =>
    if needle.isPrefixOf (c :: r) then
      repl ++ replaceSubGo needle repl fuel ((c :: r).drop needle.length)
    else c :: replaceSubGo needle repl fuel r

/-- Python `l.replace(needle, repl)` on char lists, non-empty `needle`. -/
def replaceSubL (needle repl l : List Char) : List Char :=
  replaceSubGo needle repl (l.length + 1) l

/-- Python whitespace `str.split()`: maximal non-whitespace words, no
empty items.  Fuel is at least `length + 1`. -/
def pysplitGo : Nat → List Char → List (List Char)
  | 0, _ => []
  | fuel + 1, l =>
    match l.dropWhile wsChar with
    | [] => []
    | c :: r =>
      let w := (c :: r).takeWhile (fun x => !wsChar x)
      w :: pysplitGo fuel ((c :: r).drop w.length)

/-- Python `str.split()` (whitespace form) on char lists. -/
def pysplitL (l : List Char) : List (List Char) := pysplitGo (l.length + 1) l

/-- Python `str.split(sep)` for a non-empty literal separator (keeps empty
pieces).  Fuel is at least `length + 1`. -/
def splitOnSubGo (sep : List Char) : Nat → List Char → List (List Char)
  | 0, l => [l]
  | _, [] => [[]]
  | fuel + 1, c :: r =>
    if sep.isPrefixOf (c :: r) then
      [] :: splitOnSubGo sep fuel ((c :: r).drop sep.length)
    else
      match splitOnSubGo sep fuel r with
      | [] => [[c]]
      | w :: ws => (c :: w) :: ws

/-- Python `l.split(sep)` on char lists, non-empty `sep`. -/
def splitOnSubL (sep l : List Char) : List (List Char) :=
  splitOnSubGo sep (l.length + 1) l

/-- Python `str.rfind(ch)`: highest index of `ch`, `-1` when absent. -/
def pyRfind (l : List Char) (ch : Char) : Int :=
  match l.reverse.findIdx? (fun c => c == ch) with
  | none => -1
  | some i => (l.length : Int) - 1 - (i : Int)

/-- ASCII upper-casing of a whole string, as the sources use `str.upper()`
on ASCII text. -/
def pyUpper (s : String) : String := ⟨s.data.map Char.toUpper⟩

/-- ASCII lower-casing, as the sources use `str.lower()` on ASCII text. -/
def pyLower (s : String) : String := ⟨s.data.map Char.toLower⟩

/-- Case-insensitive prefix test on char lists (ASCII folding). -/
def ciIsPrefixOf (needle hay : List Char) : Bool :=
  (needle.map Char.toLower).isPrefixOf (hay.map Char.toLower)

-- =========================================
-- Python value model (dict items)
-- =========================================

/-- The subset of Python values the guarantee / origin helpers receive from
a product dict entry. -/
inductive PyVal where
  | vnone
  | vbool (b : Bool)
  | vint (n : Int)
  | vstr (s : String)
deriving DecidableEq

/-- Python truthiness on `PyVal`. -/
def truthy : PyVal → Bool
  | .vnone => false
  | .vbool b => b
  | .vint n => n != 0
  | .vstr s => s != ""

/-- Python `str(v)`. -/
def pystr : PyVal → String
  | .vnone => "None"
  | .vbool true => "True"
  | .vbool false => "False"
  | .vint n => toString n
  | .vstr s => s

/-- A product dict as the helpers see it. -/
def Item := List (String × PyVal)

/-- Python `item.get(k)` (default `None`). -/
def pyget (item : Item) (k : String) : PyVal :=
  match List.lookup k item with
  | some v => v
  | none => .vnone

/-- Python `item.get(k, d)`. -/
def pygetD (item : Item) (k : String) (d : PyVal) : PyVal :=
  match List.lookup k item with
  | some v => v
  | none => d

/-- Python `a or b`. -/
def pyOr (a b : PyVal) : PyVal := if truthy a then a else b

-- =========================================
-- src/app/routers/brand_voice.py: guarantee_for (lines 254-264)
-- =========================================

/-- `guarantee_for` from `src/app/routers/brand_voice.py`.  The Python
`item.get("isNonStick") is True` identity test is the exact match on
`PyVal.vbool true`. -/
def guarantee_for (item : Item) : Option String :=
  if pyget item "isNonStick" = PyVal.vbool true then
    some "10-year guarantee."
  else
    let g := pyOr (pyget item "guarantee") (pyget item "warranty")
    if truthy g = false then none
    else
      let s := pystripL (pystr g).data
      some ⟨if s.getLast? = some '.' then s else s ++ ['.']⟩

-- =========================================
-- src/app/routers/brand_voice.py: made_in_line (lines 267-275)
-- =========================================

/-- The UK indicator substrings from `made_in_line`. -/
def ukIndicators : List String :=
  ["UK", "UNITED KINGDOM", "ENGLAND", "SCOTLAND", "WALES", "NORTHERN IRELAND"]

/-- The upper-cased origin text computed by `made_in_line`:
`str(item.get("madeIn", "") or item.get("origin", "")).upper()`. -/
def originTextOf (item : Item) : String :=
  pyUpper (pystr (pyOr (pygetD item "madeIn" (.vstr "")) (pygetD item "origin" (.vstr ""))))

/-- `made_in_line` from `src/app/routers/brand_voice.py`. -/
def made_in_line (item : Item) : Option String :=
  let origin := originTextOf item
  if ukIndicators.any (fun ind => containsSub origin ind) then
    some "Made in UK."
  else none

-- =========================================
-- src/app/routers/brand_voice.py: clamp (177-181),
-- build_short_html (384-410), coerce_short_html (413-438)
-- =========================================

/-- `clamp` from `src/app/routers/brand_voice.py`: truncate to
`max_length` characters and strip when over budget. -/
def clamp (text : String) (maxLength : Nat) : String :=
  if text = "" ∨ text.data.length ≤ maxLength then text
  else pystrip ⟨text.data.take maxLength⟩

/-- `re.sub(r'[.]+$', '', s)`: drop the maximal trailing run of periods. -/
def stripTrailingDotsL (l : List Char) : List Char :=
  (l.reverse.dropWhile (fun c => c == '.')).reverse

/-- `s[0].upper() + s[1:]`. -/
def capFirstL : List Char → List Char
  | [] => []
  | c :: r => c.toUpper :: r

/-- Join char-list words with a separator. -/
def joinWith (sep : List Char) : List (List Char) → List Char
  | [] => []
  | [w] => w
  | w :: ws => w ++ sep ++ joinWith sep ws

/-- The per-fragment cleaning step of `build_short_html`: skip empty
input, drop trailing periods, strip, keep at most 8 words, capitalise. -/
def tidyOne (s : String) : Option (List Char) :=
  if s = "" then none
  else
    let t := pystripL (stripTrailingDotsL s.data)
    let t := joinWith [' '] ((pysplitL t).take 8)
    if t.isEmpty then none
    else some (if 1 < t.length then capFirstL t else t.map Char.toUpper)

/-- The `while len(tidy) < 3: tidy.append("More details")` padding. -/
def padTo3 (tidy : List (List Char)) : List (List Char) :=
  match tidy with
  | [] => ["More details".data, "More details".data, "More details".data]
  | [a] => [a, "More details".data, "More details".data]
  | [a, b] => [a, b, "More details".data]
  | l => l

/-- `f"<p>{t0}<br>{t1}<br>{t2}</p>"`. -/
def assembleShort (a b c : List Char) : List Char :=
  "<p>".data ++ a ++ "<br>".data ++ b ++ "<br>".data ++ c ++ "</p>".data

/-- The word-popping loop of `build_short_html`: while the block is over
budget and the last fragment still has more than 2 words, drop its last
word and rebuild.  Fuel is at least `words.length + 1`. -/
def shrinkGo (a b : List Char) (maxLen : Nat) :
    Nat → List (List Char) → List Char → List Char
  | 0, _, result => result
  | fuel + 1, words, result =>
    if maxLen < result.length ∧ 2 < words.length then
      let words2 := words.dropLast
      shrinkGo a b maxLen fuel words2 (assembleShort a b (joinWith [' '] words2))
    else result

/-- `build_short_html` from `src/app/routers/brand_voice.py`. -/
def build_short_html (fragments : List String) (maxLen : Nat) : String :=
  let tidy := padTo3 (fragments.filterMap tidyOne)
  let a := tidy.getD 0 []
  let b := tidy.getD 1 []
  let c := tidy.getD 2 []
  let words := pysplitL c
  clamp ⟨shrinkGo a b maxLen (words.length + 1) words (assembleShort a b c)⟩ maxLen

/-- `re.sub(r'<\/?p>', '', s)`: remove every literal paragraph marker. -/
def removePTagsGo : Nat → List Char → List Char
  | 0, l => l
  | _, [] => []
  | fuel + 1, c :: r =>
    if "</p>".data.isPrefixOf (c :: r) then removePTagsGo fuel ((c :: r).drop 4)
    else if "<p>".data.isPrefixOf (c :: r) then removePTagsGo fuel ((c :: r).drop 3)
    else c :: removePTagsGo fuel r

/-- One attempted match of `<br\s*\/?>` at the head of the list; returns
what follows the tag on success. -/
def matchBrTag (l : List Char) : Option (List Char) :=
  if "<br".data.isPrefixOf l then
    match (l.drop 3).dropWhile wsChar with
    | '>' :: r => some r
    | '/' :: '>' :: r => some r
    | _ => none
  else none

/-- `re.sub(r'<br\s*\/?>', ' • ', s)`. -/
def brSubGo : Nat → List Char → List Char
  | 0, l => l
  | _, [] => []
  | fuel + 1, c :: r =>
    match matchBrTag (c :: r) with
    | some rest => ' ' :: '•' :: ' ' :: brSubGo fuel rest
    | none => c :: brSubGo fuel r

/-- `coerce_short_html` from `src/app/routers/brand_voice.py`.  Note the
structural pass (wrapped in paragraph markers with at least two `<br>`)
together with the 150-character test returns the stripped input
unchanged; only failing inputs are rebuilt. -/
def coerce_short_html (short_html : String) (category : String) : String :=
  let text := pystripL short_html.data
  if "<p>".data.isPrefixOf text ∧ "</p>".data.isSuffixOf text ∧
      2 ≤ countSubGo "<br>".data (text.length + 1) text ∧ text.length ≤ 150 then
    ⟨text⟩
  else
    let plain := removePTagsGo (text.length + 1) text
    let plain := brSubGo (plain.length + 1) plain
    let plain := pystripL (collapseWsL plain)
    let pool := ((splitOnSubL ['•'] plain).map pystripL).filter (fun s => !s.isEmpty)
    let frags :=
      if 3 ≤ pool.length then (pool.take 3).map (fun l => (⟨l⟩ : String))
      else ["Clear benefit", "Key feature", "Everyday use"]
    build_short_html frags 150

-- =========================================
-- src/app/routers/brand_voice.py: finish_meta_single_sentence (278-294),
-- clean_meta_description (297-316), coerce_long_html (441-470)
-- =========================================

/-- Sentence-final punctuation, the `[.!?]` class. -/
def sentPunct (c : Char) : Bool := c = '.' || c = '!' || c = '?'

/-- The dangling connectors of `finish_meta_single_sentence`. -/
def conjWords : List String :=
  ["and", "or", "with", "including", "for", "to", "that", "which",
   "are", "is", "was", "were"]

/-- Does `t` end with connector `w` preceded by at least one whitespace
character (the `\s+(?:...)` shape, case-insensitively)? -/
def endsWithConjWord (t : List Char) (w : String) : Bool :=
  let wl := w.data.map Char.toLower
  (wl.isSuffixOf (t.map Char.toLower)) &&
    (1 ≤ t.length - wl.length) && wsChar (t.getD (t.length - wl.length - 1) 'x')

/-- `re.sub(r'(?:\s+(?:and|or|...)\s*)+$', '', s)`: peel whitespace-led
connector words off the end.  Fuel is at least `length + 1`. -/
def dropTrailingConjGo : Nat → List Char → List Char
  | 0, l => l
  | fuel + 1, l =>
    let t := rstripL l
    match conjWords.find? (fun w => endsWithConjWord t w) with
    | some w => dropTrailingConjGo fuel (rstripL (t.take (t.length - w.data.length)))
    | none => l

/-- `re.sub(r'[–—-]\s*$', '', s)`: drop one trailing dash together with
the whitespace after it. -/
def trimTrailingDash (s : List Char) : List Char :=
  let t := rstripL s
  match t.getLast? with
  | some c => if c = '–' ∨ c = '—' ∨ c = '-' then t.dropLast else s
  | none => s

/-- `re.sub(r'[,:;]\s*$', '', s)`: drop one trailing separator together
with the whitespace after it. -/
def trimTrailingSep (s : List Char) : List Char :=
  let t := rstripL s
  match t.getLast? with
  | some c => if c = ',' ∨ c = ':' ∨ c = ';' then t.dropLast else s
  | none => s

/-- The three dangling-connector trims of `finish_meta_single_sentence`
(lines 287-289), in source order. -/
def metaTrimDangling (s : List Char) : List Char :=
  trimTrailingSep (trimTrailingDash (dropTrailingConjGo (s.length + 1) s))

/-- `if not s.endswith('.'): s = f"{s}."`. -/
def ensureDotL (t : List Char) : List Char :=
  if t.getLast? = some '.' then t else t ++ ['.']

/-- `finish_meta_single_sentence` from `src/app/routers/brand_voice.py`.
After whitespace collapsing and stripping, `re.search(r'\.\s*$', s)` is a
final-period test and `re.search(r'[.!?].+\.\s*$', s)` asks for an
earlier sentence terminator at least two characters before that final
period. -/
def finish_meta_single_sentence (meta : String) : String :=
  let s := pystripL (collapseWsL meta.data)
  if s.getLast? = some '.' ∧ ¬ (s.dropLast.dropLast.any sentPunct = true) then
    ⟨s⟩
  else
    ⟨ensureDotL (metaTrimDangling s)⟩

/-- The truncation step of `clean_meta_description` (lines 304-309):
`if len(s) > max_len: s = s[:max_len]` then try to end at a sentence
boundary in the last 25 characters. -/
def metaTruncate (s : List Char) (maxLen : Nat) : List Char :=
  if maxLen < s.length then
    let s1 := s.take maxLen
    let lastDot := pyRfind s1 '.'
    if 0 < lastDot ∧ (s1.length : Int) - 25 ≤ lastDot then
      s1.take (lastDot.toNat + 1)
    else s1
  else s

/-- The final `re.sub(r'[.!?]*\s*$', '.', s)` of `clean_meta_description`
(line 314), with CPython 3.7+ semantics: when the string ends in a
(possibly whitespace-padded) punctuation run, both the run and the
adjacent empty match at the end of the string are replaced, yielding two
periods; otherwise a single period is appended at the empty match. -/
def finalDotSub (s : List Char) : List Char :=
  let rev := s.reverse
  let wsRun := rev.takeWhile wsChar
  let punctRun := (rev.drop wsRun.length).takeWhile sentPunct
  let runLen := wsRun.length + punctRun.length
  if runLen = 0 then s ++ ['.'] else s.take (s.length - runLen) ++ ['.', '.']

/-- `clean_meta_description` from `src/app/routers/brand_voice.py`. -/
def clean_meta_description (text : String) (maxLen : Nat) : String :=
  if text = "" then ""
  else
    let s := pystripL (collapseWsL text.data)
    let s := metaTruncate s maxLen
    let s := capFirstL s
    ⟨pystripL (finalDotSub s)⟩

/-- Scan for the closing `</p>` of a lazy `<p>(.*?)<\/p>` match without
`re.DOTALL`: fail on a newline before the closing marker.  Returns the
inner text and what follows the closing marker. -/
def findCloseGo : Nat → List Char → Option (List Char × List Char)
  | 0, _ => none
  | _, [] => none
  | fuel + 1, c :: r =>
    if "</p>".data.isPrefixOf (c :: r) then some ([], (c :: r).drop 4)
    else if c = '\n' then none
    else
      match findCloseGo fuel r with
      | some (inner, post) => some (c :: inner, post)
      | none => none

/-- Leftmost match of `re.search(r'<p>(.*?)<\/p>', html)` (no `DOTALL`):
returns the text before the match, the captured group and the text after
the match. -/
def pFindGo : Nat → List Char → Option (List Char × List Char × List Char)
  | 0, _ => none
  | _, [] => none
  | fuel + 1, c :: r =>
    if "<p>".data.isPrefixOf (c :: r) then
      match findCloseGo ((c :: r).length + 1) ((c :: r).drop 3) with
      | some (inner, post) => some ([], inner, post)
      | none =>
        match pFindGo fuel r with
        | some (pre, inner, post) => some (c :: pre, inner, post)
        | none => none
    else
      match pFindGo fuel r with
      | some (pre, inner, post) => some (c :: pre, inner, post)
      | none => none

/-- Like `findCloseGo` but for the `[\s\S]*?` form of the banned-term
pattern, which does cross newlines. -/
def findCloseAnyGo : Nat → List Char → Option (List Char × List Char)
  | 0, _ => none
  | _, [] => none
  | fuel + 1, c :: r =>
    if "</p>".data.isPrefixOf (c :: r) then some ([], (c :: r).drop 4)
    else
      match findCloseAnyGo fuel r with
      | some (inner, post) => some (c :: inner, post)
      | none => none

/-- The banned retail terms stripped from the meta paragraph only. -/
def bannedRetailWords : List String :=
  ["shop", "buy", "order", "price", "delivery", "shipping"]

/-- Python `\w` on the ASCII range. -/
def isWordChar (c : Char) : Bool := c.isAlphanum || c = '_'

/-- Try to match one alternative of `\b(shop|buy|...)\b` at the head of
the list (case-insensitively); returns the matched length. -/
def matchBannedAt (l : List Char) : Option Nat :=
  match bannedRetailWords.find?
      (fun w => ciIsPrefixOf w.data l && !isWordChar (l.getD w.data.length ' ')) with
  | some w => some w.data.length
  | none => none

/-- `re.sub(r'\b(shop|buy|order|price|delivery|shipping)\b', '', s,
flags=re.IGNORECASE)`.  The Bool tracks whether the previous character was
a word character (the left `\b`). -/
def bannedWordSubGo : Nat → Bool → List Char → List Char
  | 0, _, l => l
  | _, _, [] => []
  | fuel + 1, prevWord, c :: r =>
    match (if prevWord then none else matchBannedAt (c :: r)) with
    | some k => bannedWordSubGo fuel true ((c :: r).drop k)
    | none => c :: bannedWordSubGo fuel (isWordChar c) r

/-- The `re.sub(r'^<p>[\s\S]*?<\/p>', lambda m: ..., html)` step of
`coerce_long_html`: rewrite the leading paragraph (when the text starts
with one) by removing banned retail words and tidying the space debris. -/
def bannedMetaSub (l : List Char) : List Char :=
  if "<p>".data.isPrefixOf l then
    match findCloseAnyGo (l.length + 1) (l.drop 3) with
    | some (inner, post) =>
      let region := "<p>".data ++ inner ++ "</p>".data
      let t := bannedWordSubGo (region.length + 1) false region
      let t := replaceSubL "  ".data " ".data t
      let t := replaceSubL " .".data ".".data t
      t ++ post
    | none => l
  else l

/-- The meta sentence `coerce_long_html` substitutes for the first
paragraph of a non-empty input. -/
def coerceLongMeta (html : List Char) (product_name : String) : String :=
  let metaSeed :=
    match pFindGo (html.length + 1) html with
    | some (_, inner, _) => (⟨inner⟩ : String)
    | none => ""
  let seed :=
    if metaSeed = "" then
      "The " ++ product_name ++ " provides reliable performance for everyday use."
    else metaSeed
  clean_meta_description (finish_meta_single_sentence seed) 160

/-- `coerce_long_html` from `src/app/routers/brand_voice.py`. -/
def coerce_long_html (long_html : String) (product_name : String) (category : String) :
    String :=
  let html := pystripL long_html.data
  if html.isEmpty then
    let meta :=
      clean_meta_description
        (finish_meta_single_sentence
          ("The " ++ product_name ++ " provides reliable performance for everyday use."))
        160
    "<p>" ++ meta ++ "</p><p>" ++ product_name ++
      " is designed for everyday use with clear, accurate details to help you choose with confidence.</p>"
  else
    let meta := coerceLongMeta html product_name
    let html2 :=
      match pFindGo (html.length + 1) html with
      | some (pre, _, post) => pre ++ "<p>".data ++ meta.data ++ "</p>".data ++ post
      | none => html
    clamp ⟨bannedMetaSub html2⟩ 2000

-- =========================================
-- src/app/services/brand_voice.py: parse_openai_response (292-342),
-- extract_meta_from_long_html (345-380)
-- =========================================

/-- JSON values as `json.loads` produces them.  Numbers are modelled as
integers: the pipeline never exchanges fractional JSON numbers, and
floating point is outside the embedding. -/
inductive JVal where
  | jnull
  | jbool (b : Bool)
  | jint (n : Int)
  | jstr (s : String)
  | jarr (xs : List JVal)
  | jobj (fields : List (String × JVal))

/-- JSON whitespace. -/
def jwsChar (c : Char) : Bool := c = ' ' || c = '\t' || c = '\n' || c = '\r'

/-- Skip JSON whitespace. -/
def jskipWs (l : List Char) : List Char := l.dropWhile jwsChar

/-- Hexadecimal digit value. -/
def hexVal (c : Char) : Option Nat :=
  if '0' ≤ c ∧ c ≤ '9' then some (c.toNat - '0'.toNat)
  else if 'a' ≤ c ∧ c ≤ 'f' then some (c.toNat - 'a'.toNat + 10)
  else if 'A' ≤ c ∧ c ≤ 'F' then some (c.toNat - 'A'.toNat + 10)
  else none

/-- Parse the remainder of a JSON string literal (the opening quote is
already consumed). -/
def jparseStringGo : Nat → List Char → Except String (List Char × List Char)
  | 0, _ => .error "fuel exhausted"
  | _, [] => .error "Unterminated string"
  | fuel + 1, c :: r =>
    if c = '"' then .ok ([], r)
    else if c = '\\' then
      match r with
      | [] => .error "Unterminated string"
      | e :: r2 =>
        let dec : Except String (Char × List Char) :=
          if e = '"' then .ok ('"', r2)
          else if e = '\\' then .ok ('\\', r2)
          else if e = '/' then .ok ('/', r2)
          else if e = 'b' then .ok ('\x08', r2)
          else if e = 'f' then .ok ('\x0c', r2)
          else if e = 'n' then .ok ('\n', r2)
          else if e = 'r' then .ok ('\r', r2)
          else if e = 't' then .ok ('\t', r2)
          else if e = 'u' then
            match r2 with
            | h1 :: h2 :: h3 :: h4 :: r3 =>
              match hexVal h1, hexVal h2, hexVal h3, hexVal h4 with
              | some a, some b, some c2, some d =>
                .ok (Char.ofNat (((a * 16 + b) * 16 + c2) * 16 + d), r3)
              | _, _, _, _ => .error "Invalid \\uXXXX escape"
            | _ => .error "Invalid \\uXXXX escape"
          else .error "Invalid \\escape"
        match dec with
        | .ok (ch, rest) =>
          match jparseStringGo fuel rest with
          | .ok (s, rest2) => .ok (ch :: s, rest2)
          | .error msg => .error msg
        | .error msg => .error msg
    else
      match jparseStringGo fuel r with
      | .ok (s, rest2) => .ok (c :: s, rest2)
      | .error msg => .error msg

/-- Decimal value of a digit run. -/
def digitsVal (ds : List Char) : Nat :=
  ds.foldl (fun acc c => acc * 10 + (c.toNat - '0'.toNat)) 0

mutual

/-- Parse one JSON value (integer-number subset of `json.loads`). -/
def jparseValueGo : Nat → List Char → Except String (JVal × List Char)
  | 0, _ => .error "fuel exhausted"
  | fuel + 1, input =>
    let l := jskipWs input
    match l with
    | [] => .error "Expecting value"
    | c :: r =>
      if "null".data.isPrefixOf l then .ok (.jnull, l.drop 4)
      else if "true".data.isPrefixOf l then .ok (.jbool true, l.drop 4)
      else if "false".data.isPrefixOf l then .ok (.jbool false, l.drop 5)
      else if c = '"' then
        match jparseStringGo (r.length + 1) r with
        | .ok (s, rest) => .ok (.jstr ⟨s⟩, rest)
        | .error msg => .error msg
      else if c = '[' then
        match jskipWs r with
        | ']' :: r2 => .ok (.jarr [], r2)
        | l2 =>
          match jparseArrItemsGo fuel l2 with
          | .ok (vs, rest) => .ok (.jarr vs, rest)
          | .error msg => .error msg
      else if c = '{' then
        match jskipWs r with
        | '}' :: r2 => .ok (.jobj [], r2)
        | l2 =>
          match jparseObjItemsGo fuel l2 with
          | .ok (fs, rest) => .ok (.jobj fs, rest)
          | .error msg => .error msg
      else if c = '-' ∨ c.isDigit then
        let body := if c = '-' then r else l
        let ds := body.takeWhile Char.isDigit
        if ds.isEmpty then .error "Expecting value"
        else
          .ok (.jint (if c = '-' then -(digitsVal ds : Int) else (digitsVal ds : Int)),
               body.drop ds.length)
      else .error "Expecting value"

/-- Parse the items of a non-empty JSON array, positioned at a value. -/
def jparseArrItemsGo : Nat → List Char → Except String (List JVal × List Char)
  | 0, _ => .error "fuel exhausted"
  | fuel + 1, l =>
    match jparseValueGo fuel l with
    | .error msg => .error msg
    | .ok (v, rest) =>
      match jskipWs rest with
      | ']' :: r2 => .ok ([v], r2)
      | ',' :: r2 =>
        match jparseArrItemsGo fuel r2 with
        | .ok (vs, rest2) => .ok (v :: vs, rest2)
        | .error msg => .error msg
      | _ => .error "Expecting comma or close bracket"

/-- Parse the members of a non-empty JSON object, positioned at a key. -/
def jparseObjItemsGo : Nat → List Char → Except String (List (String × JVal) × List Char)
  | 0, _ => .error "fuel exhausted"
  | fuel + 1, l =>
    match jskipWs l with
    | '"' :: r =>
      match jparseStringGo (r.length + 1) r with
      | .error msg => .error msg
      | .ok (k, rest) =>
        match jskipWs rest with
        | ':' :: r2 =>
          match jparseValueGo fuel r2 with
          | .error msg => .error msg
          | .ok (v, rest2) =>
            match jskipWs rest2 with
            | '}' :: r3 => .ok ([(⟨k⟩, v)], r3)
            | ',' :: r3 =>
              match jparseObjItemsGo fuel r3 with
              | .ok (fs, rest3) => .ok ((⟨k⟩, v) :: fs, rest3)
              | .error msg => .error msg
            | _ => .error "Expecting comma or close brace"
        | _ => .error "Expecting colon"
    | _ => .error "Expecting property name"

end

/-- `json.loads` on the modelled subset: one value, then only whitespace. -/
def jparse (s : String) : Except String JVal :=
  match jparseValueGo (2 * s.data.length + 2) s.data with
  | .error msg => .error msg
  | .ok (v, rest) => if (jskipWs rest).isEmpty then .ok v else .error "Extra data"

/-- Python dict lookup after building from a key-value list: the last
binding of a repeated key wins; `d` is the `dict.get` default. -/
def jgetD (fields : List (String × JVal)) (k : String) (d : JVal) : JVal :=
  match List.lookup k fields.reverse with
  | some v => v
  | none => d

/-- Python truthiness of a parsed JSON value. -/
def truthyJ : JVal → Bool
  | .jnull => false
  | .jbool b => b
  | .jint n => n != 0
  | .jstr s => s != ""
  | .jarr xs => !xs.isEmpty
  | .jobj f => !f.isEmpty

/-- The fence-stripping prelude of `parse_openai_response` (lines
303-315): strip, drop a leading three-backtick fence with an optional
literal `json` tag, drop a trailing three-backtick fence, strip again. -/
def stripFences (content : String) : List Char :=
  let c := pystripL content.data
  let c :=
    if "```json".data.isPrefixOf c then c.drop 7
    else if "```".data.isPrefixOf c then c.drop 3
    else c
  let c := if "```".data.isSuffixOf c then c.take (c.length - 3) else c
  pystripL c

/-- One attempted match of `<[^>]+>` at the head of the list. -/
def matchTag (l : List Char) : Option (List Char) :=
  match l with
  | '<' :: r =>
    let body := r.takeWhile (fun c => c ≠ '>')
    if body.isEmpty then none
    else
      match r.drop body.length with
      | '>' :: rest => some rest
      | _ => none
  | _ => none

/-- `re.sub(r'<[^>]+>', '', s)`. -/
def stripTagsGo : Nat → List Char → List Char
  | 0, l => l
  | _, [] => []
  | fuel + 1, c :: r =>
    match matchTag (c :: r) with
    | some rest => stripTagsGo fuel rest
    | none => c :: stripTagsGo fuel r

/-- First `<p>(.*?)</p>` match with `re.DOTALL` (crosses newlines):
returns the captured group. -/
def pFindDotAllGo : Nat → List Char → Option (List Char)
  | 0, _ => none
  | _, [] => none
  | fuel + 1, c :: r =>
    if "<p>".data.isPrefixOf (c :: r) then
      match findCloseAnyGo ((c :: r).length + 1) ((c :: r).drop 3) with
      | some (inner, _) => some inner
      | none => pFindDotAllGo fuel r
    else pFindDotAllGo fuel r

/-- `extract_meta_from_long_html` from `src/app/services/brand_voice.py`. -/
def extract_meta_from_long_html (long_html : String) : String :=
  match pFindDotAllGo (long_html.data.length + 1) long_html.data with
  | some inner =>
    let meta := pystripL inner
    let meta := stripTagsGo (meta.length + 1) meta
    if 160 < meta.length then
      let first160 := meta.take 160
      if first160.any (fun c => c = '.') then
        ⟨meta.take ((pyRfind first160 '.').toNat + 1)⟩
      else ⟨meta.take 157 ++ "...".data⟩
    else ⟨meta⟩
  | none =>
    let plain := pystripL (stripTagsGo (long_html.data.length + 1) long_html.data)
    if 160 < plain.length then ⟨plain.take 157 ++ "...".data⟩ else ⟨plain⟩

/-- The dict `parse_openai_response` returns.  `shortDescription` and
`longDescription` carry the parsed JSON members unchanged (the code never
checks they are strings); `metaDescription` is derived text. -/
structure OaiParsed where
  shortDescription : JVal
  metaDescription : String
  longDescription : JVal

/-- `parse_openai_response` from `src/app/services/brand_voice.py`.
Failure collapses the Python exception flow: invalid JSON, a non-dict
top-level value (`AttributeError` on `.get`), a falsy member (the
explicit raise), or a non-string `long_html` handed to `re.search`
inside `extract_meta_from_long_html` (`TypeError`). -/
def parse_openai_response (content : String) : Except String OaiParsed :=
  match jparse ⟨stripFences content⟩ with
  | .error msg => .error ("Invalid JSON from OpenAI: " ++ msg)
  | .ok data =>
    match data with
    | .jobj fields =>
      let short_html := jgetD fields "short_html" (.jstr "")
      let long_html := jgetD fields "long_html" (.jstr "")
      if truthyJ short_html = false ∨ truthyJ long_html = false then
        .error "Missing short_html or long_html in response"
      else
        match long_html with
        | .jstr s => .ok ⟨short_html, extract_meta_from_long_html s, .jstr s⟩
        | _ => .error "TypeError: expected string or bytes-like object"
    | _ => .error "AttributeError: object has no attribute get"

-- =========================================
-- src/app/utils/sanitizers.py: strip_forbidden_phrases (11-45),
-- sanitize_html (48-75); phrase list from src/app/config.py (46-54)
-- =========================================

/-- `FORBIDDEN_PHRASES` from `src/app/config.py`. -/
def FORBIDDEN_PHRASES : List String :=
  ["Harts of Stur", "Since 1919", "Since 1990", "Dorset",
   "family-run", "family run", "imported from"]

/-- One unit of the inter-word separator `(?:\s|&nbsp;|<[^>]+>)`. -/
def sepUnit (l : List Char) : Option (List Char) :=
  match l with
  | [] => none
  | c :: r =>
    if wsChar c then some r
    else if "&nbsp;".data.isPrefixOf (c :: r) then some ((c :: r).drop 6)
    else matchTag (c :: r)

/-- Greedily consume separator units. -/
def sepsStarGo : Nat → List Char → List Char
  | 0, l => l
  | fuel + 1, l =>
    match sepUnit l with
    | some r => sepsStarGo fuel r
    | none => l

/-- Consume at least one separator unit (the `+` of the phrase pattern). -/
def sepsPlus (fuel : Nat) (l : List Char) : Option (List Char) :=
  match sepUnit l with
  | some r => some (sepsStarGo fuel r)
  | none => none

/-- Try to match a whole multi-word phrase at the head of the list:
each word literally (case-insensitively), separated by one or more
whitespace / `&nbsp;` / inline-tag units. -/
def matchPhraseAt : List (List Char) → List Char → Option (List Char)
  | [], l => some l
  | [w], l => if ciIsPrefixOf w l then some (l.drop w.length) else none
  | w :: ws, l =>
    if ciIsPrefixOf w l then
      match sepsPlus (l.length + 1) (l.drop w.length) with
      | some r => matchPhraseAt ws r
      | none => none
    else none

/-- `re.sub` for one forbidden-phrase pattern
`\bW1(?:\s|&nbsp;|<[^>]+>)+W2...\b` (case-insensitive).  The Bool tracks
whether the previous character was a word character (the left `\b`); the
right `\b` is the non-word check on the first character after the match. -/
def phraseSubGo (wordsList : List (List Char)) : Nat → Bool → List Char → List Char
  | 0, _, l => l
  | _, _, [] => []
  | fuel + 1, prevWord, c :: r =>
    let attempt :=
      if prevWord then none
      else
        match matchPhraseAt wordsList (c :: r) with
        | some rest => if isWordChar (rest.headD ' ') then none else some rest
        | none => none
    match attempt with
    | some rest => phraseSubGo wordsList fuel true rest
    | none => c :: phraseSubGo wordsList fuel (isWordChar c) r

/-- One attempted match of `\bimported\s+from\s+\w+\b` (the left `\b` is
handled by the caller's flag). -/
def matchImportedFrom (l : List Char) : Option (List Char) :=
  if ciIsPrefixOf "imported".data l then
    let r := l.drop 8
    let ws1 := r.takeWhile wsChar
    if ws1.isEmpty then none
    else
      let r2 := r.drop ws1.length
      if ciIsPrefixOf "from".data r2 then
        let r3 := r2.drop 4
        let ws2 := r3.takeWhile wsChar
        if ws2.isEmpty then none
        else
          let r4 := r3.drop ws2.length
          let w := r4.takeWhile isWordChar
          if w.isEmpty then none else some (r4.drop w.length)
      else none
  else none

/-- `re.sub(r'\bimported\s+from\s+\w+\b', '', s, flags=re.IGNORECASE)`. -/
def importedFromSubGo : Nat → Bool → List Char → List Char
  | 0, _, l => l
  | _, _, [] => []
  | fuel + 1, prevWord, c :: r =>
    match (if prevWord then none else matchImportedFrom (c :: r)) with
    | some rest => importedFromSubGo fuel true rest
    | none => c :: importedFromSubGo fuel (isWordChar c) r

/-- `re.sub(r'\s{2,}', ' ', s)`. -/
def multiWsSubGo : Nat → List Char → List Char
  | 0, l => l
  | _, [] => []
  | fuel + 1, c :: r =>
    if wsChar c then
      let run := (c :: r).takeWhile wsChar
      if 2 ≤ run.length then ' ' :: multiWsSubGo fuel ((c :: r).drop run.length)
      else c :: multiWsSubGo fuel r
    else c :: multiWsSubGo fuel r

/-- The `[.,;:]` class of the punctuation-debris patterns. -/
def sepPunct (c : Char) : Bool := c = '.' || c = ',' || c = ';' || c = ':'

/-- `re.sub(r'\s+([.,;:])', r'\1', s)`. -/
def wsPunctSubGo : Nat → List Char → List Char
  | 0, l => l
  | _, [] => []
  | fuel + 1, c :: r =>
    if wsChar c then
      let run := (c :: r).takeWhile wsChar
      match (c :: r).drop run.length with
      | p :: rest =>
        if sepPunct p then p :: wsPunctSubGo fuel rest
        else c :: wsPunctSubGo fuel r
      | [] => c :: wsPunctSubGo fuel r
    else c :: wsPunctSubGo fuel r

/-- `re.sub(r'([.,;:])\s*\1+', r'\1', s)`. -/
def punctDupSubGo : Nat → List Char → List Char
  | 0, l => l
  | _, [] => []
  | fuel + 1, c :: r =>
    if sepPunct c then
      let ws := r.takeWhile wsChar
      let rest := r.drop ws.length
      let dups := rest.takeWhile (fun x => x = c)
      if dups.isEmpty then c :: punctDupSubGo fuel r
      else c :: punctDupSubGo fuel (rest.drop dups.length)
    else c :: punctDupSubGo fuel r

/-- `strip_forbidden_phrases` from `src/app/utils/sanitizers.py`. -/
def strip_forbidden_phrases (content : String) : String :=
  if content = "" then content
  else
    let result := replaceSubL "&nbsp;".data " ".data content.data
    let result := replaceSubL ['\u00A0'] [' '] result
    let result := FORBIDDEN_PHRASES.foldl
      (fun acc phrase => phraseSubGo (pysplitL phrase.data) (acc.length + 1) false acc)
      result
    let result := importedFromSubGo (result.length + 1) false result
    let result := multiWsSubGo (result.length + 1) result
    let result := wsPunctSubGo (result.length + 1) result
    let result := punctDupSubGo (result.length + 1) result
    ⟨pystripL result⟩

/-- One attempted match of `<TAG[^>]*>` (case-insensitive). -/
def matchBlockOpen (tag : List Char) (l : List Char) : Option (List Char) :=
  if ciIsPrefixOf ('<' :: tag) l then
    let r := l.drop (tag.length + 1)
    let body := r.takeWhile (fun c => c ≠ '>')
    match r.drop body.length with
    | '>' :: rest => some rest
    | _ => none
  else none

/-- Find the nearest case-insensitive occurrence of `closer` (the lazy
`.*?` with `re.DOTALL`); returns what follows it. -/
def findCloseTag (closer : List Char) : Nat → List Char → Option (List Char)
  | 0, _ => none
  | _, [] => none
  | fuel + 1, c :: r =>
    if ciIsPrefixOf closer (c :: r) then some ((c :: r).drop closer.length)
    else findCloseTag closer fuel r

/-- `re.sub(r'<TAG[^>]*>.*?</TAG>', '', s, flags=re.IGNORECASE | re.DOTALL)`. -/
def blockTagSubGo (tag : String) : Nat → List Char → List Char
  | 0, l => l
  | _, [] => []
  | fuel + 1, c :: r =>
    match matchBlockOpen tag.data (c :: r) with
    | some afterOpen =>
      match findCloseTag ("</" ++ tag ++ ">").data (afterOpen.length + 1) afterOpen with
      | some rest => blockTagSubGo tag fuel rest
      | none => c :: blockTagSubGo tag fuel r
    | none => c :: blockTagSubGo tag fuel r

/-- `re.sub(r'<TAG[^>]*>', '', s, flags=re.IGNORECASE)`. -/
def simpleTagSubGo (tag : String) : Nat → List Char → List Char
  | 0, l => l
  | _, [] => []
  | fuel + 1, c :: r =>
    match matchBlockOpen tag.data (c :: r) with
    | some rest => simpleTagSubGo tag fuel rest
    | none => c :: simpleTagSubGo tag fuel r

/-- The `["']` class. -/
def isQuote (c : Char) : Bool := c = '"' || c = Char.ofNat 39

/-- One attempted match of `\s+on\w+\s*=\s*["'][^"']*["']`. -/
def matchEvent1 (l : List Char) : Option (List Char) :=
  let ws1 := l.takeWhile wsChar
  if ws1.isEmpty then none
  else
    let r := l.drop ws1.length
    if ciIsPrefixOf "on".data r then
      let r2 := r.drop 2
      let w := r2.takeWhile isWordChar
      if w.isEmpty then none
      else
        match (r2.drop w.length).dropWhile wsChar with
        | '=' :: r5 =>
          match r5.dropWhile wsChar with
          | q :: r7 =>
            if isQuote q then
              let body := r7.takeWhile (fun c => !isQuote c)
              match r7.drop body.length with
              | _ :: rest => some rest
              | [] => none
            else none
          | [] => none
        | _ => none
    else none

/-- One attempted match of `\s+on\w+\s*=\s*\S+`. -/
def matchEvent2 (l : List Char) : Option (List Char) :=
  let ws1 := l.takeWhile wsChar
  if ws1.isEmpty then none
  else
    let r := l.drop ws1.length
    if ciIsPrefixOf "on".data r then
      let r2 := r.drop 2
      let w := r2.takeWhile isWordChar
      if w.isEmpty then none
      else
        match (r2.drop w.length).dropWhile wsChar with
        | '=' :: r5 =>
          let r6 := r5.dropWhile wsChar
          let body := r6.takeWhile (fun c => !wsChar c)
          if body.isEmpty then none else some (r6.drop body.length)
        | _ => none
    else none

/-- Scanner applying an attempted-match function as a removal `re.sub`. -/
def removalSubGo (attempt : List Char → Option (List Char)) : Nat → List Char → List Char
  | 0, l => l
  | _, [] => []
  | fuel + 1, c :: r =>
    match attempt (c :: r) with
    | some rest => removalSubGo attempt fuel rest
    | none => c :: removalSubGo attempt fuel r

/-- Case-insensitive literal removal (`re.sub` with `re.IGNORECASE`). -/
def ciRemoveSubGo (needle : List Char) : Nat → List Char → List Char
  | 0, l => l
  | _, [] => []
  | fuel + 1, c :: r =>
    if ciIsPrefixOf needle (c :: r) then ciRemoveSubGo needle fuel ((c :: r).drop needle.length)
    else c :: ciRemoveSubGo needle fuel r

/-- `sanitize_html` from `src/app/utils/sanitizers.py`. -/
def sanitize_html (content : String) : String :=
  if content = "" then content
  else
    let c := content.data
    let c := blockTagSubGo "script" (c.length + 1) c
    let c := blockTagSubGo "style" (c.length + 1) c
    let c := blockTagSubGo "iframe" (c.length + 1) c
    let c := blockTagSubGo "object" (c.length + 1) c
    let c := simpleTagSubGo "embed" (c.length + 1) c
    let c := simpleTagSubGo "link" (c.length + 1) c
    let c := simpleTagSubGo "meta" (c.length + 1) c
    let c := removalSubGo matchEvent1 (c.length + 1) c
    let c := removalSubGo matchEvent2 (c.length + 1) c
    let c := ciRemoveSubGo "javascript:".data (c.length + 1) c
    ⟨pystripL c⟩

/-- The sanitizer as the specification orders it: forbidden phrases
first, then HTML sanitization. -/
def sanitizePipeline (s : String) : String := sanitize_html (strip_forbidden_phrases s)

-- =========================================
-- src/app/services/seo_lighthouse.py: validate_and_fix_meta (14-84),
-- pad_meta_with_keywords (143-175), truncate_meta_smartly (178-204),
-- inject_keyword (207-236), ensure_single_sentence (239-269)
-- =========================================

/-- `SEO_META_MIN_LENGTH` from `src/app/config.py`. -/
def SEO_META_MIN_LENGTH : Nat := 150

/-- `SEO_META_MAX_LENGTH` from `src/app/config.py`. -/
def SEO_META_MAX_LENGTH : Nat := 160

/-- `BANNED_SEO_KEYWORDS` from `src/app/config.py`. -/
def BANNED_SEO_KEYWORDS : List String :=
  ["shop", "shops", "shopping", "buy", "order", "orders", "price", "prices",
   "sale", "every"]

/-- The keyword loop of `pad_meta_with_keywords`: skip keywords already
present, append `" with {kw}"` while it still fits (`+1` for the final
period), stop at the first keyword that does not fit. -/
def padLoop (targetLen : Nat) : List String → List Char → List Char
  | [], result => result
  | kw :: rest, result =>
    if containsSubL (pyLower kw).data (result.map Char.toLower) then
      padLoop targetLen rest result
    else
      let test := result ++ (" with " ++ kw).data
      if test.length + 1 ≤ targetLen then padLoop targetLen rest test
      else result

/-- `pad_meta_with_keywords` from `src/app/services/seo_lighthouse.py`. -/
def pad_meta_with_keywords (meta : String) (keywords : List String) (targetLen : Nat) :
    String :=
  if keywords.isEmpty then meta
  else
    let result := stripTrailingDotsL meta.data
    let result := padLoop targetLen (keywords.take 3) result
    ⟨if result.getLast? = some '.' then result else result ++ ['.']⟩

/-- `truncate_meta_smartly` from `src/app/services/seo_lighthouse.py`.
The float comparisons `last_period > max_len * 0.75` and
`last_space > max_len * 0.85` are embedded as the exact integer
comparisons `4 * last_period > 3 * max_len` and
`20 * last_space > 17 * max_len`; at the only call site `max_len = 160`,
where `120.0` and `136.0` are exact, the two agree. -/
def truncate_meta_smartly (meta : String) (maxLen : Nat) : String :=
  if meta.data.length ≤ maxLen then meta
  else
    let truncated := meta.data.take maxLen
    let lastPeriod := pyRfind truncated '.'
    if (3 : Int) * maxLen < 4 * lastPeriod then
      ⟨meta.data.take (lastPeriod.toNat + 1)⟩
    else
      let lastSpace := pyRfind truncated ' '
      if (17 : Int) * maxLen < 20 * lastSpace then
        ⟨rstripL (meta.data.take lastSpace.toNat) ++ "...".data⟩
      else ⟨meta.data.take (maxLen - 3) ++ "...".data⟩

/-- `inject_keyword` from `src/app/services/seo_lighthouse.py`. -/
def inject_keyword (meta : String) (keyword : String) (maxLen : Nat) : String :=
  if containsSubL (pyLower keyword).data (pyLower meta).data then meta
  else
    let base := stripTrailingDotsL meta.data
    let candidate := base ++ (" with " ++ keyword ++ ".").data
    if candidate.length ≤ maxLen then ⟨candidate⟩
    else
      let candidate2 := base ++ (" for " ++ keyword ++ ".").data
      if candidate2.length ≤ maxLen then ⟨candidate2⟩ else meta

/-- `ensure_single_sentence` from `src/app/services/seo_lighthouse.py`. -/
def ensure_single_sentence (meta : String) : String :=
  let m := pystripL meta.data
  let sents := splitOnSubL ". ".data m
  let m := if 1 < sents.length then sents.headD [] else m
  let m := replaceSubL ['\n'] [' '] m
  let m := replaceSubL ['\r'] [] m
  let m := collapseWsL m
  ⟨if m.getLast? = some '.' then m
    else if m.getLast? = some '!' ∨ m.getLast? = some '?' then m
    else m ++ ['.']⟩

/-- The dict `validate_and_fix_meta` returns. -/
structure SeoFix where
  original : String
  fixed : String
  issues : List String
  keywordsPresent : List String
deriving DecidableEq

/-- `validate_and_fix_meta` from `src/app/services/seo_lighthouse.py`
(the `async` wrapper has no effect on the value). -/
def validate_and_fix_meta (meta_description : String) (product_name : String)
    (keywords : List String) : SeoFix :=
  let fixed := pystrip meta_description
  let originalLength := fixed.data.length
  let st1 : List String × String :=
    if originalLength < SEO_META_MIN_LENGTH then
      (["meta_too_short"], pad_meta_with_keywords fixed keywords SEO_META_MIN_LENGTH)
    else if SEO_META_MAX_LENGTH < originalLength then
      (["meta_too_long"], truncate_meta_smartly fixed SEO_META_MAX_LENGTH)
    else ([], fixed)
  let issues := st1.1
  let fixed := st1.2
  let validKeywords := keywords.filter (fun kw => !(BANNED_SEO_KEYWORDS.contains (pyLower kw)))
  let metaLower := pyLower fixed
  let keywordsPresent := validKeywords.filter (fun kw => containsSub metaLower (pyLower kw))
  let st2 : List String × String × List String :=
    if keywordsPresent.isEmpty ∧ ¬ validKeywords.isEmpty then
      let kw0 := validKeywords.headD ""
      let fixed2 := inject_keyword fixed kw0 SEO_META_MAX_LENGTH
      let kp := if containsSub (pyLower fixed2) (pyLower kw0) then [kw0] else []
      (issues ++ ["no_keywords"], fixed2, kp)
    else (issues, fixed, keywordsPresent)
  ⟨meta_description, ensure_single_sentence st2.2.1, st2.1, st2.2.2⟩

-- =========================================
-- src/app/services/brand_voice.py: generate (113-144),
-- generate_single_product (147-225); constants from src/app/config.py
-- =========================================

/-- A description bundle as stored on a product dict. -/
structure Descriptions where
  shortDescription : String
  metaDescription : String
  longDescription : String
deriving DecidableEq

/-- A product as the batch loop of `generate` sees it: its per-product
processing outcome only depends on this value.  `extra` stands for the
remaining dict entries, which the error path leaves untouched. -/
structure SvcProduct where
  name : String
  extra : List (String × String)
  descriptions : Option Descriptions
  generationError : Option String
deriving DecidableEq

/-- The visible error placeholder bundle written by the `except` branch of
`generate` (lines 136-140). -/
def errorDescriptions : Descriptions :=
  ⟨"<p>Processing error</p>", "Product description generation failed.",
   "<p>Unable to generate description.</p>"⟩

/-- The `except` branch of `generate`: attach the placeholder bundle and
the `_generation_error` marker to the product that failed. -/
def applyErrorMarker (p : SvcProduct) (msg : String) : SvcProduct :=
  { p with descriptions := some errorDescriptions, generationError := some msg }

/-- The batch loop of `generate` from `src/app/services/brand_voice.py`:
per-product processing (the body of the `try`, i.e.
`generate_single_product`) is the oracle `gen`; any exception it raises is
the `Except.error` case.  The sequential loop appending one entry per
product is a `map` because no state crosses products. -/
def generate (gen : SvcProduct → Except String SvcProduct)
    (products : List SvcProduct) : List SvcProduct :=
  products.map (fun p =>
    match gen p with
    | .ok enhanced => enhanced
    | .error msg => applyErrorMarker p msg)

/-- `OPENAI_MAX_RETRIES` from `src/app/config.py`. -/
def OPENAI_MAX_RETRIES : Nat := 3

/-- A failed attempt: the `except OpenAIError` branch versus the generic
`except Exception` branch, with the stringified cause. -/
structure OaiFailure where
  isOpenAIError : Bool
  msg : String
deriving DecidableEq

deriving instance DecidableEq for Except

/-- The observable outcome of `generate_single_product`: the returned or
raised value, the backoff sleeps issued in order, and how many attempts
were made. -/
structure RetryResult where
  outcome : Except String String
  waits : List Nat
  attempts : Nat
deriving DecidableEq

/-- The message of the final raise, by failure kind (lines 212 and 222). -/
def retryMessage (f : OaiFailure) : String :=
  if f.isOpenAIError then
    "OpenAI failed after " ++ toString OPENAI_MAX_RETRIES ++ " retries: " ++ f.msg
  else
    "Generation failed after " ++ toString OPENAI_MAX_RETRIES ++ " retries: " ++ f.msg

/-- The `for attempt in range(1, OPENAI_MAX_RETRIES + 1)` loop of
`generate_single_product`.  The attempt body (OpenAI call, parse,
sanitize) is the oracle `call`; on failure before the last attempt the
loop sleeps `2 ** attempt` seconds and retries, and on the last attempt
it raises with the last cause. -/
def generate_single_product_go (call : Nat → Except OaiFailure String) :
    Nat → Nat → List Nat → RetryResult
  | 0, attempt, waits => ⟨.error "loop exhausted", waits, attempt - 1⟩
  | fuel + 1, attempt, waits =>
    match call attempt with
    | .ok content => ⟨.ok content, waits, attempt⟩
    | .error f =>
      if attempt < OPENAI_MAX_RETRIES then
        generate_single_product_go call fuel (attempt + 1) (waits ++ [2 ^ attempt])
      else ⟨.error (retryMessage f), waits, attempt⟩

/-- `generate_single_product` from `src/app/services/brand_voice.py`,
abstracted over the per-attempt body. -/
def generate_single_product (call : Nat → Except OaiFailure String) : RetryResult :=
  generate_single_product_go call (OPENAI_MAX_RETRIES + 1) 1 []

/-- The two-product batch oracle of the C3 witness: the product named
"bad" raises, the rest succeed. -/
def genOracle0 : SvcProduct → Except String SvcProduct := fun p =>
  if p.name = "bad" then .error "boom"
  else .ok { p with descriptions := some ⟨"<p>s</p>", "m.", "<p>l</p>"⟩ }

/-- The always-failing oracle of the C4 witness. -/
def failingCall : Nat → Except OaiFailure String := fun n =>
  .error ⟨true, "err" ++ toString n⟩

-- =========================================
-- Specification-side predicates (worded from the claims, for
-- counterexamples and refinement comparisons)
-- =========================================

/-- The short-content contract exactly as claim C1 words it: exactly 3
fragments separated by break markers, each 2-8 words, none ending in a
period, total length (markup included) at most 150. -/
def shortContractOk (s : String) : Bool :=
  let frags := splitOnSubL "<br>".data (removePTagsGo (s.data.length + 1) s.data)
  (frags.length == 3) &&
    frags.all (fun f =>
      let w := (pysplitL f).length
      decide (2 ≤ w) && decide (w ≤ 8) && !(f.getLast? == some '.')) &&
    decide (s.data.length ≤ 150)

/-- The long-content contract exactly as claim C2 words it: the first
paragraph's text is 150-160 characters and ends with exactly one period,
and the whole block is at most 2000 characters. -/
def longContractOk (s : String) : Bool :=
  match pFindGo (s.data.length + 1) s.data with
  | some (_, inner, _) =>
    decide (150 ≤ inner.length) && decide (inner.length ≤ 160) &&
      (inner.getLast? == some '.') && !(inner.dropLast.getLast? == some '.') &&
      decide (s.data.length ≤ 2000)
  | none => false

/-- The parse success condition exactly as claim C5 words it: the
fence-stripped text is a JSON object whose `short_html` and `long_html`
members are non-empty strings. -/
def specStringFieldsOk (content : String) : Bool :=
  match jparse ⟨stripFences content⟩ with
  | .ok (.jobj fields) =>
    (match jgetD fields "short_html" (.jstr "") with
     | .jstr s => s != ""
     | _ => false) &&
    (match jgetD fields "long_html" (.jstr "") with
     | .jstr s => s != ""
     | _ => false)
  | _ => false

/-- The parse success condition as the code actually decides it:
`short_html` only needs to be truthy (any JSON type), while `long_html`
must be a non-empty string (a non-string truthy value raises `TypeError`
inside the meta extraction). -/
def parseSuccessCondition (content : String) : Bool :=
  match jparse ⟨stripFences content⟩ with
  | .ok (.jobj fields) =>
    truthyJ (jgetD fields "short_html" (.jstr "")) &&
      (match jgetD fields "long_html" (.jstr "") with
       | .jstr s => s != ""
       | _ => false)
  | _ => false

/-- Does the string end in a sentence terminator? -/
def endsSentence (s : String) : Bool :=
  match s.data.getLast? with
  | some c => sentPunct c
  | none => false

/-- The SEO meta shape exactly as claim C9 words it: first character
capitalised, ends with exactly one terminal period. -/
def capitalizedSinglePeriod (s : String) : Bool :=
  (match s.data.head? with
   | some c => c.isUpper
   | none => false) &&
    (s.data.getLast? == some '.') && !(s.data.dropLast.getLast? == some '.')

-- =========================================
-- Helper lemmas
-- =========================================

theorem data_mk (l : List Char) : (String.mk l).data = l := rfl

theorem pystripL_length_le (l : List Char) : (pystripL l).length ≤ l.length := by
  unfold pystripL rstripL lstripL
  calc ((l.dropWhile wsChar).reverse.dropWhile wsChar).reverse.length
      = ((l.dropWhile wsChar).reverse.dropWhile wsChar).length := List.length_reverse _
    _ ≤ (l.dropWhile wsChar).reverse.length := (List.dropWhile_sublist _).length_le
    _ = (l.dropWhile wsChar).length := List.length_reverse _
    _ ≤ l.length := (List.dropWhile_sublist _).length_le

theorem clamp_length_le (s : String) (n : Nat) : (clamp s n).data.length ≤ n := by
  unfold clamp
  split
  · next h =>
    rcases h with h | h
    · subst h; exact Nat.zero_le n
    · exact h
  · unfold pystrip
    calc (pystripL (s.data.take n)).length ≤ (s.data.take n).length :=
          pystripL_length_le _
      _ ≤ n := by simp

-- =========================================
-- C6: guarantee-line priority rule
-- =========================================

/-- C6: `guarantee_for` follows the priority rule.  If `isNonStick` is
the boolean `True` the line is exactly "10-year guarantee." whatever
guarantee or warranty text is present; otherwise, when the
guarantee-or-warranty value is truthy it is echoed (stripped) once with a
trailing period ensured; otherwise no line is produced. -/
theorem c6_guarantee_priority (item : Item) :
    (pyget item "isNonStick" = PyVal.vbool true →
      guarantee_for item = some "10-year guarantee.") ∧
    (pyget item "isNonStick" ≠ PyVal.vbool true →
      (truthy (pyOr (pyget item "guarantee") (pyget item "warranty")) = true →
        ∃ t : List Char, guarantee_for item = some ⟨t⟩ ∧ t.getLast? = some '.' ∧
          (t = pystripL (pystr (pyOr (pyget item "guarantee") (pyget item "warranty"))).data ∨
           t = pystripL (pystr (pyOr (pyget item "guarantee") (pyget item "warranty"))).data
             ++ ['.'])) ∧
      (truthy (pyOr (pyget item "guarantee") (pyget item "warranty")) = false →
        guarantee_for item = none)) := by
  refine ⟨fun h => by simp [guarantee_for, h], fun h => ⟨fun hg => ?_, fun hg => by
    simp [guarantee_for, h, hg]⟩⟩
  by_cases hd : (pystripL (pystr (pyOr (pyget item "guarantee")
      (pyget item "warranty"))).data).getLast? = some '.'
  · exact ⟨_, by simp [guarantee_for, h, hg, hd], hd, Or.inl rfl⟩
  · exact ⟨_, by simp [guarantee_for, h, hg, hd], by simp, Or.inr rfl⟩

/-- Witness for C6 at a concrete product carrying both the non-stick flag
and explicit guarantee text. -/
theorem c6_guarantee_priority_witness :
    guarantee_for [("isNonStick", PyVal.vbool true), ("guarantee", PyVal.vstr "2-year")] =
      some "10-year guarantee." :=
  (c6_guarantee_priority _).1 (by decide)

-- =========================================
-- C10: the non-stick branch needs the exact boolean True
-- =========================================

/-- C10: the non-stick branch of `guarantee_for` fires only on the exact
boolean `True`; a truthy non-boolean `isNonStick` value (such as the
integer 1 or the string "true") falls through to the echo-or-omit logic
on the guarantee/warranty text. -/
theorem c10_nonstick_strict_bool (item : Item)
    (htruthy : truthy (pyget item "isNonStick") = true)
    (hn : pyget item "isNonStick" ≠ PyVal.vbool true) :
    guarantee_for item =
      (let g := pyOr (pyget item "guarantee") (pyget item "warranty")
       if truthy g = false then none
       else
         let s := pystripL (pystr g).data
         some ⟨if s.getLast? = some '.' then s else s ++ ['.']⟩) := by
  simp [guarantee_for, hn]

/-- Witness for C10: with `isNonStick = 1` (truthy, not the boolean) and
guarantee text present, the guarantee text is echoed rather than the
fixed 10-year line. -/
theorem c10_nonstick_strict_bool_witness :
    guarantee_for [("isNonStick", PyVal.vint 1), ("guarantee", PyVal.vstr "2-year")] =
      some "2-year." :=
  (c10_nonstick_strict_bool
    [("isNonStick", PyVal.vint 1), ("guarantee", PyVal.vstr "2-year")]
    (by decide) (by decide)).trans (by decide)

-- =========================================
-- C7: origin line (corrected: substring matching, "Ukraine" triggers it)
-- =========================================

/-- C7 counterexample: the origin text "Ukraine" does not indicate the
United Kingdom, yet the line is emitted, because the uppercased text
"UKRAINE" contains the indicator substring "UK". -/
theorem c7_counterexample :
    made_in_line [("origin", PyVal.vstr "Ukraine")] = some "Made in UK." := by decide

/-- C7 amended: the origin line, always exactly "Made in UK.", is emitted
precisely when the uppercased origin/madeIn text contains one of the
indicator substrings UK, UNITED KINGDOM, ENGLAND, SCOTLAND, WALES,
NORTHERN IRELAND — a substring test, not an unambiguous-country test, so
texts such as "Ukraine" also trigger it. -/
theorem c7_amended_origin_substring (item : Item) :
    (made_in_line item = some "Made in UK." ↔
      ∃ ind ∈ ukIndicators, containsSub (originTextOf item) ind = true) ∧
    (made_in_line item = some "Made in UK." ∨ made_in_line item = none) := by
  have hif : made_in_line item =
      if (ukIndicators.any fun ind => containsSub (originTextOf item) ind) = true then
        some "Made in UK."
      else none := rfl
  rw [hif]
  constructor
  · split
    · next h => exact iff_of_true rfl (List.any_eq_true.mp h)
    · next h =>
      refine iff_of_false (by simp) fun hex => h (List.any_eq_true.mpr hex)
  · split
    · exact Or.inl rfl
    · exact Or.inr rfl

-- =========================================
-- C5: response parsing (corrected: truthy short_html, string long_html)
-- =========================================

/-- C5 counterexample: with `short_html` the number 5 (truthy but not a
string) and a non-empty string `long_html`, parsing succeeds and returns
the number unchanged, although the claim requires non-empty string
fields for success. -/
theorem c5_counterexample :
    (parse_openai_response
        "\x7b\"short_html\": 5, \"long_html\": \"<p>x</p>\"\x7d").isOk = true ∧
    specStringFieldsOk "\x7b\"short_html\": 5, \"long_html\": \"<p>x</p>\"\x7d" = false := by
  decide

/-- C5 amended: `parse_openai_response` succeeds exactly when the
fence-stripped text parses as a JSON object whose `short_html` member is
truthy (of any JSON type) and whose `long_html` member is a non-empty
string; absence, emptiness, invalid JSON, a non-object value, or a
non-string `long_html` all fail. -/
theorem c5_amended_parse_success_iff (content : String) :
    (parse_openai_response content).isOk = parseSuccessCondition content := by
  have isOkErr : ∀ e : String, (Except.error (α := OaiParsed) e).isOk = false := fun _ => rfl
  have isOkVal : ∀ x : OaiParsed, (Except.ok (ε := String) x).isOk = true := fun _ => rfl
  have core : ∀ sh lh : JVal,
      (if truthyJ sh = false ∨ truthyJ lh = false then
         (Except.error "Missing short_html or long_html in response" : Except String OaiParsed)
       else
         match lh with
         | .jstr s => .ok ⟨sh, extract_meta_from_long_html s, .jstr s⟩
         | _ => .error "TypeError: expected string or bytes-like object").isOk =
      (truthyJ sh && (match lh with | .jstr s => s != "" | _ => false)) := by
    intro sh lh
    rcases lh with _ | b | n | s2 | xs | fs2
    · split <;> simp [truthyJ, isOkErr]
    · split <;> simp [truthyJ, isOkErr]
    · split <;> simp [truthyJ, isOkErr]
    · by_cases hs : truthyJ sh = true
      · simp only [hs]
        by_cases h2 : s2 = ""
        · subst h2; simp [truthyJ, isOkErr]
        · simp [truthyJ, h2, isOkErr, isOkVal]
      · simp only [Bool.not_eq_true] at hs
        simp only [hs]
        simp [isOkErr]
    · split <;> simp [truthyJ, isOkErr]
    · split <;> simp [truthyJ, isOkErr]
  unfold parse_openai_response parseSuccessCondition
  cases h : jparse ⟨stripFences content⟩ with
  | error e => exact isOkErr _
  | ok v =>
    cases v with
    | jobj fields => exact core _ _
    | jnull => exact isOkErr _
    | jbool b => exact isOkErr _
    | jint n => exact isOkErr _
    | jstr s2 => exact isOkErr _
    | jarr xs => exact isOkErr _

-- =========================================
-- C8: sanitizer idempotence (code bug)
-- =========================================

/-- C8: sanitization is *not* idempotent.  On
"Ha&lt;script&gt;z&lt;/script&gt;rts of Stur" the first pass leaves the
phrase fragments untouched (no contiguous phrase), then tag removal
splices them into the forbidden phrase "Harts of Stur"; the second pass
strips that phrase entirely, so sanitizing the sanitized text changes
it.  The code contradicts the specified idempotence property. -/
theorem c8_sanitize_not_idempotent :
    sanitizePipeline "Ha<script>z</script>rts of Stur" = "Harts of Stur" ∧
    sanitizePipeline (sanitizePipeline "Ha<script>z</script>rts of Stur") = "" ∧
    sanitizePipeline (sanitizePipeline "Ha<script>z</script>rts of Stur") ≠
      sanitizePipeline "Ha<script>z</script>rts of Stur" := by
  refine ⟨by decide, by decide, by decide⟩

-- =========================================
-- C9: SEO meta adjuster (corrected: terminator only, no capitalisation)
-- =========================================

/-- C9 counterexample: on input "ab.." with no keywords the fixed output
is "ab.." — the first character is not re-capitalised and the output ends
with two periods, not exactly one. -/
theorem c9_counterexample :
    (validate_and_fix_meta "ab.." "x" []).fixed = "ab.." ∧
    capitalizedSinglePeriod (validate_and_fix_meta "ab.." "x" []).fixed = false := by
  decide

theorem ensure_single_sentence_terminator (s : String) :
    endsSentence (ensure_single_sentence s) = true := by
  have key : ∀ m : List Char,
      endsSentence ⟨if m.getLast? = some '.' then m
        else if m.getLast? = some '!' ∨ m.getLast? = some '?' then m
        else m ++ ['.']⟩ = true := by
    intro m
    by_cases h1 : m.getLast? = some '.'
    · rw [if_pos h1]
      simp [endsSentence, h1, sentPunct]
    · rw [if_neg h1]
      by_cases h2 : m.getLast? = some '!' ∨ m.getLast? = some '?'
      · rw [if_pos h2]
        rcases h2 with h2 | h2 <;> simp [endsSentence, h2, sentPunct]
      · rw [if_neg h2]
        simp [endsSentence, List.getLast?_concat, sentPunct]
  exact key _

/-- C9 amended: the fixed meta always ends in a sentence terminator
('.', '!' or '?') — `ensure_single_sentence` appends a period only when
none of the three is already last, and no step re-capitalises the first
character, so the claimed capitalisation and exactly-one-period
guarantees do not hold. -/
theorem c9_amended_terminal_punctuation (meta name : String) (kws : List String) :
    endsSentence (validate_and_fix_meta meta name kws).fixed = true := by
  simp only [validate_and_fix_meta]
  exact ensure_single_sentence_terminator _

-- =========================================
-- C1: short-content coercion (corrected: compliant-looking inputs pass
-- through unchecked; only the length bound is unconditional)
-- =========================================

/-- C1 counterexample: "&lt;p&gt;Hi.&lt;br&gt;B&lt;br&gt;C&lt;/p&gt;"
passes the structural and length tests, so `coerce_short_html` returns it
unchanged, although its first fragment ends in a period and its second
fragment has a single word. -/
theorem c1_counterexample :
    coerce_short_html "<p>Hi.<br>B<br>C</p>" "General" = "<p>Hi.<br>B<br>C</p>" ∧
    shortContractOk (coerce_short_html "<p>Hi.<br>B<br>C</p>" "General") = false := by
  decide

/-- C1 amended: the coerced short block never exceeds 150 characters, and
any input whose stripped text passes the structural test (wrapped in
paragraph markers with at least two `&lt;br&gt;`) together with the
150-character test is returned unchanged — the fragment-count, word-count
and trailing-period rules of the contract are not re-checked on that
path. -/
theorem c1_amended_short_block_bounds (s cat : String) :
    (coerce_short_html s cat).data.length ≤ 150 ∧
    (("<p>".data.isPrefixOf (pystripL s.data) ∧ "</p>".data.isSuffixOf (pystripL s.data) ∧
        2 ≤ countSubGo "<br>".data ((pystripL s.data).length + 1) (pystripL s.data) ∧
        (pystripL s.data).length ≤ 150) →
      coerce_short_html s cat = ⟨pystripL s.data⟩) := by
  simp only [coerce_short_html]
  split
  · next h => exact ⟨h.2.2.2, fun _ => rfl⟩
  · next h =>
    exact ⟨clamp_length_le _ _, fun hcond => absurd hcond h⟩

set_option maxHeartbeats 2000000 in
/-- Witness for C1 at the concrete pass-through input. -/
theorem c1_amended_witness :
    coerce_short_html "<p>Hi.<br>B<br>C</p>" "General" = "<p>Hi.<br>B<br>C</p>" :=
  ((c1_amended_short_block_bounds "<p>Hi.<br>B<br>C</p>" "General").2 (by decide)).trans
    (by decide)

-- =========================================
-- C2: long-content coercion (corrected: no length window, doubled
-- period; only the 2000 bound and a terminal period hold)
-- =========================================

theorem ensureDotL_getLast (t : List Char) : (ensureDotL t).getLast? = some '.' := by
  unfold ensureDotL
  by_cases h : t.getLast? = some '.'
  · rw [if_pos h]; exact h
  · rw [if_neg h]; exact List.getLast?_concat _

theorem finish_meta_ends_dot (m : String) :
    (finish_meta_single_sentence m).data.getLast? = some '.' := by
  simp only [finish_meta_single_sentence]
  split
  · next h => rw [data_mk]; exact h.1
  · rw [data_mk]; exact ensureDotL_getLast _

theorem finish_meta_ne_empty (m : String) : finish_meta_single_sentence m ≠ "" := by
  intro hc
  have h := finish_meta_ends_dot m
  rw [hc] at h
  cases h

theorem getLast?_dropWhile_of_not (p : Char → Bool) (c : Char) (hc : p c = false) :
    ∀ l : List Char, l.getLast? = some c → (l.dropWhile p).getLast? = some c := by
  intro l
  induction l with
  | nil => intro h; cases h
  | cons a t ih =>
    intro h
    rw [List.dropWhile_cons]
    by_cases hpa : p a = true
    · rw [if_pos hpa]
      cases t with
      | nil =>
        simp only [List.getLast?_singleton, Option.some.injEq] at h
        subst h
        rw [hpa] at hc
        cases hc
      | cons b t2 =>
        exact ih (by rwa [List.getLast?_cons_cons] at h)
    · rw [if_neg hpa]
      exact h

theorem rstripL_eq_of_getLast (l : List Char) (c : Char) (hc : wsChar c = false)
    (h : l.getLast? = some c) : rstripL l = l := by
  unfold rstripL
  have hh : l.reverse.head? = some c := by rw [List.head?_reverse]; exact h
  cases hr : l.reverse with
  | nil => rw [hr] at hh; cases hh
  | cons x xs =>
    rw [hr] at hh
    injection hh with hx
    subst hx
    have hd : List.dropWhile wsChar (x :: xs) = x :: xs := by
      rw [List.dropWhile_cons, if_neg (by simp [hc])]
    rw [hd, ← hr, List.reverse_reverse]

theorem pystripL_getLast_dot (l : List Char) (h : l.getLast? = some '.') :
    (pystripL l).getLast? = some '.' := by
  unfold pystripL
  have h1 : (lstripL l).getLast? = some '.' :=
    getLast?_dropWhile_of_not wsChar '.' (by decide) l h
  rw [rstripL_eq_of_getLast _ '.' (by decide) h1]
  exact h1

theorem capFirstL_length (l : List Char) : (capFirstL l).length = l.length := by
  cases l <;> rfl

theorem finalDotSub_getLast (s : List Char) : (finalDotSub s).getLast? = some '.' := by
  simp only [finalDotSub]
  split
  · exact List.getLast?_concat _
  · rw [show ∀ x : List Char, x ++ ['.', '.'] = (x ++ ['.']) ++ ['.'] by
      intro x; simp]
    exact List.getLast?_concat _

theorem finalDotSub_length (s : List Char) : (finalDotSub s).length ≤ s.length + 1 := by
  simp only [finalDotSub]
  split
  · next h =>
    simp only [List.length_append, List.length_cons, List.length_nil]
    omega
  · next h =>
    have hws : (s.reverse.takeWhile wsChar).length ≤ s.reverse.length :=
      (List.takeWhile_sublist _).length_le
    have hp : ((s.reverse.drop (s.reverse.takeWhile wsChar).length).takeWhile
        sentPunct).length ≤ s.reverse.length - (s.reverse.takeWhile wsChar).length := by
      calc ((s.reverse.drop (s.reverse.takeWhile wsChar).length).takeWhile
            sentPunct).length
          ≤ (s.reverse.drop (s.reverse.takeWhile wsChar).length).length :=
            (List.takeWhile_sublist _).length_le
        _ = s.reverse.length - (s.reverse.takeWhile wsChar).length :=
            List.length_drop _ _
    rw [List.length_append, List.length_take, Nat.min_eq_left (Nat.sub_le _ _)]
    simp only [List.length_cons, List.length_nil, List.length_reverse] at *
    omega

theorem metaTruncate_length (s : List Char) (maxLen : Nat) :
    (metaTruncate s maxLen).length ≤ maxLen := by
  simp only [metaTruncate]
  split
  · split
    · calc ((s.take maxLen).take ((pyRfind (s.take maxLen) '.').toNat + 1)).length
          ≤ (s.take maxLen).length := (List.take_sublist _ _).length_le
        _ ≤ maxLen := List.length_take_le _ _
    · exact List.length_take_le _ _
  · next hlt => exact Nat.le_of_not_lt hlt

theorem clean_meta_ends_dot (t : String) (n : Nat) (ht : t ≠ "") :
    (clean_meta_description t n).data.getLast? = some '.' := by
  simp only [clean_meta_description]
  rw [if_neg ht, data_mk]
  exact pystripL_getLast_dot _ (finalDotSub_getLast _)

theorem clean_meta_length_le (t : String) (n : Nat) :
    (clean_meta_description t n).data.length ≤ n + 1 := by
  simp only [clean_meta_description]
  split
  · simp
  · rw [data_mk]
    calc (pystripL (finalDotSub (capFirstL (metaTruncate
            (pystripL (collapseWsL t.data)) n)))).length
        ≤ (finalDotSub (capFirstL (metaTruncate
            (pystripL (collapseWsL t.data)) n))).length := pystripL_length_le _
      _ ≤ (capFirstL (metaTruncate (pystripL (collapseWsL t.data)) n)).length + 1 :=
          finalDotSub_length _
      _ = (metaTruncate (pystripL (collapseWsL t.data)) n).length + 1 := by
          rw [capFirstL_length]
      _ ≤ n + 1 := Nat.add_le_add_right (metaTruncate_length _ _) 1

set_option maxHeartbeats 4000000 in
/-- C2 counterexample: on the well-formed single-sentence input
"&lt;p&gt;Hello there.&lt;/p&gt;" the rebuilt first paragraph is
"Hello there.." — 13 characters, far below the 150 minimum, and ending in
two periods because the final trailing-punctuation `re.sub` also replaces
the adjacent empty match (CPython 3.7+). -/
theorem c2_counterexample :
    coerce_long_html "<p>Hello there.</p>" "Pan" "General" = "<p>Hello there..</p>" ∧
    longContractOk (coerce_long_html "<p>Hello there.</p>" "Pan" "General") = false := by
  decide

/-- C2 amended: for every input whose stripped text is non-empty, the
coerced long block is at most 2000 characters, and the meta sentence
substituted for the first paragraph always ends with a period (possibly
two) and has at most 161 characters; the [150,160] window and the
exactly-one-period guarantee do not hold. -/
theorem c2_amended_long_coercion (s name cat : String) (h : pystripL s.data ≠ []) :
    (coerce_long_html s name cat).data.length ≤ 2000 ∧
    (coerceLongMeta (pystripL s.data) name).data.getLast? = some '.' ∧
    (coerceLongMeta (pystripL s.data) name).data.length ≤ 161 := by
  refine ⟨?_, ?_, ?_⟩
  · simp only [coerce_long_html]
    split
    · next hemp => exact absurd (List.isEmpty_iff.mp hemp) h
    · exact clamp_length_le _ _
  · unfold coerceLongMeta
    exact clean_meta_ends_dot _ _ (finish_meta_ne_empty _)
  · unfold coerceLongMeta
    exact clean_meta_length_le _ _

/-- Witness for C2 at the concrete input of the counterexample. -/
theorem c2_amended_witness :
    (coerce_long_html "<p>Hello there.</p>" "Pan" "General").data.length ≤ 2000 ∧
    (coerceLongMeta (pystripL "<p>Hello there.</p>".data) "Pan").data.getLast? =
      some '.' :=
  ⟨(c2_amended_long_coercion "<p>Hello there.</p>" "Pan" "General" (by decide)).1,
   (c2_amended_long_coercion "<p>Hello there.</p>" "Pan" "General" (by decide)).2.1⟩

-- =========================================
-- C3: batch isolation in the orchestrator
-- =========================================

/-- C3: the batch loop yields one result per input product; a product
whose processing fails receives exactly the visible error placeholder
bundle (with the cause recorded), a product whose processing succeeds
receives its enhanced value, and each slot depends only on its own
product — so one failure never aborts or perturbs the rest of the
batch. -/
theorem c3_batch_isolation (gen : SvcProduct → Except String SvcProduct)
    (ps : List SvcProduct) (dflt : SvcProduct) (i : Nat) (hi : i < ps.length) :
    (generate gen ps).length = ps.length ∧
    (∀ msg, gen (ps.getD i dflt) = .error msg →
      (generate gen ps).getD i dflt = applyErrorMarker (ps.getD i dflt) msg) ∧
    (∀ q, gen (ps.getD i dflt) = .ok q → (generate gen ps).getD i dflt = q) := by
  have hget : (generate gen ps).getD i dflt =
      match gen (ps.getD i dflt) with
      | .ok e => e
      | .error msg => applyErrorMarker (ps.getD i dflt) msg := by
    unfold generate
    rw [List.getD_eq_getElem?_getD, List.getElem?_map, List.getElem?_eq_getElem hi,
      List.getD_eq_getElem?_getD, List.getElem?_eq_getElem hi]
    rfl
  refine ⟨List.length_map _ _, fun msg hmsg => ?_, fun q hq => ?_⟩
  · rw [hget, hmsg]
  · rw [hget, hq]

/-- Witness for C3: in a batch of two products where the first raises,
the first slot carries the placeholder bundle and the second its
successful result. -/
theorem c3_batch_isolation_witness :
    (generate genOracle0 [⟨"bad", [], none, none⟩, ⟨"good", [], none, none⟩]).getD 0
        ⟨"bad", [], none, none⟩ =
      applyErrorMarker ⟨"bad", [], none, none⟩ "boom" ∧
    (generate genOracle0 [⟨"bad", [], none, none⟩, ⟨"good", [], none, none⟩]).getD 1
        ⟨"bad", [], none, none⟩ =
      { name := "good", extra := [],
        descriptions := some ⟨"<p>s</p>", "m.", "<p>l</p>"⟩, generationError := none } :=
  ⟨(c3_batch_isolation genOracle0 _ _ 0 (by decide)).2.1 "boom" (by decide),
   (c3_batch_isolation genOracle0 _ _ 1 (by decide)).2.2 _ (by decide)⟩

-- =========================================
-- C4: retry policy of the generation client
-- =========================================

/-- C4: the generation client makes at most 3 attempts; after a failure
on attempt 1 the first backoff sleep is 2 seconds, after failures on
attempts 1 and 2 the sleeps are exactly [2, 4] (2^1 and 2^2 seconds);
and when all 3 attempts fail the client raises a generation error whose
message carries the last cause instead of returning a result. -/
theorem c4_retry_policy (call : Nat → Except OaiFailure String) :
    (generate_single_product call).attempts ≤ 3 ∧
    (∀ f1, call 1 = .error f1 →
      (generate_single_product call).waits.head? = some 2) ∧
    (∀ f1 f2, call 1 = .error f1 → call 2 = .error f2 →
      (generate_single_product call).waits = [2, 4]) ∧
    (∀ f1 f2 f3, call 1 = .error f1 → call 2 = .error f2 → call 3 = .error f3 →
      (generate_single_product call).outcome = .error (retryMessage f3) ∧
      (generate_single_product call).attempts = 3) := by
  have run : generate_single_product call =
      match call 1 with
      | .ok r => ⟨.ok r, [], 1⟩
      | .error _ =>
        match call 2 with
        | .ok r => ⟨.ok r, [2], 2⟩
        | .error _ =>
          match call 3 with
          | .ok r => ⟨.ok r, [2, 4], 3⟩
          | .error f3 => ⟨.error (retryMessage f3), [2, 4], 3⟩ := by
    cases hc1 : call 1 <;> cases hc2 : call 2 <;> cases hc3 : call 3 <;>
      simp [generate_single_product, generate_single_product_go, OPENAI_MAX_RETRIES,
        hc1, hc2, hc3]
  refine ⟨?_, fun f1 h1 => ?_, fun f1 f2 h1 h2 => ?_, fun f1 f2 f3 h1 h2 h3 => ?_⟩
  · rw [run]
    cases call 1 <;> cases call 2 <;> cases call 3 <;> simp
  · rw [run, h1]
    cases call 2 <;> cases call 3 <;> simp
  · rw [run, h1, h2]
    cases call 3 <;> simp
  · rw [run, h1, h2, h3]
    exact ⟨rfl, rfl⟩

/-- Witness for C4: with every attempt failing, the sleeps are exactly
[2, 4] and the raise carries the cause of attempt 3. -/
theorem c4_retry_policy_witness :
    (generate_single_product failingCall).waits = [2, 4] ∧
    (generate_single_product failingCall).outcome =
      .error "OpenAI failed after 3 retries: err3" := by
  have h := c4_retry_policy failingCall
  refine ⟨h.2.2.1 ⟨true, "err1"⟩ ⟨true, "err2"⟩ (by decide) (by decide), ?_⟩
  exact ((h.2.2.2 ⟨true, "err1"⟩ ⟨true, "err2"⟩ ⟨true, "err3"⟩ (by decide) (by decide)
    (by decide)).1).trans (by decide)

end Docling
